import Mathlib

/-!
Shallow embedding of the orchestration core of the `relatorio-opcoes-b3`
repository (src/python/orchestrator.py, analyzer.py, mailer.py), together
with theorems settling the frozen claims about it.

Conventions of the embedding:
* the filesystem state relevant to the date lock is `Option LockFile`
  (`none` = lock file absent);
* machine floats of the Python code are modelled as rationals (`ℚ`);
* external effects (the R subprocess, the PDF renderer, SMTP delivery) are
  modelled as environments describing their outcomes, one per invocation;
* fallible Python code returns `Except` / explicit result inductives.
-/

/- ============================================================ -/
/- DateLock (orchestrator.py lines 174-249)                      -/
/- ============================================================ -/

/-- A lock file on disk.  `mtime` is the filesystem modification time
(seconds since epoch), `stamp` and `pid` model the two diagnostic content
lines written on acquisition (`datetime.now().isoformat()` and
`PID: <os.getpid()>`). -/
structure LockFile where
  mtime : ℚ
  stamp : ℚ
  pid : ℕ
deriving DecidableEq

/-- Age of the lock file in hours, as computed at orchestrator.py line
207-208: `age_seconds = time.time() - st_mtime; age_hours = age_seconds/3600`. -/
def lockAgeHours (now : ℚ) (f : LockFile) : ℚ :=
  (now - f.mtime) / 3600

/-- Outcome of `DateLock.acquire`.  `lockHeld` models the `RuntimeError`
raised when a non-stale lock exists (its message reports the age and the
ttl); `fuelOut` is an artifact of modelling the `while True` loop with
explicit fuel and is proved unreachable for fuel ≥ 2. -/
inductive AcquireResult where
  | acquired (f : LockFile)
  | lockHeld (ageHours ttlHours : ℚ)
  | fuelOut
deriving DecidableEq

/-- The `while True` loop of `DateLock.acquire` (orchestrator.py lines
199-227), in a single-process filesystem model.  Each iteration:
`os.open(..., O_CREAT | O_EXCL)` succeeds iff the lock file is absent,
in which case the timestamp and pid lines are written (lines 229-232);
otherwise the age is inspected: age < ttl raises `RuntimeError` (modelled
`lockHeld age ttl`), age ≥ ttl evicts the file (`unlink`) and loops. -/
def acquireLoop (ttlHours now : ℚ) (pid : ℕ) : ℕ → Option LockFile → AcquireResult
  | 0, _ => .fuelOut
  | _ + 1, none => .acquired ⟨now, now, pid⟩
  | fuel + 1, some f =>
    if lockAgeHours now f < ttlHours then
      .lockHeld (lockAgeHours now f) ttlHours
    else
      acquireLoop ttlHours now pid fuel none

/-- Errors raisable by the modelled filesystem calls. -/
inductive PyErr where
  | fileNotFoundError
deriving DecidableEq

/-- `Path.unlink()`: deleting an absent file raises `FileNotFoundError`. -/
def unlink : Option LockFile → Except PyErr (Option LockFile)
  | none => .error .fileNotFoundError
  | some _ => .ok none

namespace DateLock

/-- `DateLock.acquire` (orchestrator.py lines 192-233).  The unbounded
`while True` loop is run with fuel 2; fuel 2 is proved sufficient in the
sequential model (claim C9). -/
def acquire (ttlHours now : ℚ) (pid : ℕ) (fs : Option LockFile) : AcquireResult :=
  acquireLoop ttlHours now pid 2 fs

/-- `DateLock.release` (orchestrator.py lines 235-242): the handle is
closed (no filesystem effect), then the file is unlinked only if it
exists — `if self.lock_path.exists(): self.lock_path.unlink()`.  Note the
code consults only existence, never the file's content/owner. -/
def release (fs : Option LockFile) : Except PyErr (Option LockFile) :=
  if fs.isSome then unlink fs else .ok fs

end DateLock

/- ============================================================ -/
/- run_r_download (orchestrator.py lines 256-402)                -/
/- ============================================================ -/

/-- Outcome of one `subprocess.run` invocation of the R script:
`exited code` = process finished with that return code;
`timedOut` = `subprocess.TimeoutExpired`;
`rscriptNotFound` = `FileNotFoundError` (missing executable);
`raisedOther` = any other exception (the generic `except Exception`). -/
inductive ProcOutcome where
  | exited (code : ℤ)
  | timedOut
  | rscriptNotFound
  | raisedOther
deriving DecidableEq

/-- The externally observable effect of one invocation attempt: the
subprocess outcome and the state of the parquet artifact afterwards
(`none` = absent, `some s` = present with size `s` bytes). -/
structure AttemptEffect where
  outcome : ProcOutcome
  artifact : Option ℕ
deriving DecidableEq

/-- Result of the fetch stage.  Each constructor records how many
subprocess invocations and how many backoff waits (`time.sleep` calls)
happened: `skipped` = idempotent skip, artifact already present;
`downloaded` = success; `rscriptMissing` = `FileNotFoundError` re-raised;
`exhausted` = `RuntimeError` after all retries. -/
inductive FetchResult where
  | skipped
  | downloaded (invocations waits : ℕ)
  | rscriptMissing (invocations waits : ℕ)
  | exhausted (invocations waits : ℕ)
deriving DecidableEq

/-- Number of subprocess invocations a `FetchResult` records. -/
def FetchResult.invocations : FetchResult → ℕ
  | .skipped => 0
  | .downloaded n _ => n
  | .rscriptMissing n _ => n
  | .exhausted n _ => n

/-- Number of backoff waits a `FetchResult` records. -/
def FetchResult.waits : FetchResult → ℕ
  | .skipped => 0
  | .downloaded _ w => w
  | .rscriptMissing _ w => w
  | .exhausted _ w => w

/-- The retry loop of `run_r_download` (orchestrator.py lines 323-402),
with `remaining` attempts left out of the configured maximum and
1-indexed `attempt` counter.  One iteration, per the source:
* `FileNotFoundError` re-raises immediately (line 372);
* success test (line 349): `result.returncode == 0 and parquet_path.exists()`
  — note: existence only, the size is NOT inspected here;
* any other outcome falls through to the backoff section (lines 379-391):
  if attempts remain (`attempt < max_retries`, i.e. `0 < remaining - 1`)
  and fast-retry is off, one `time.sleep` wait happens before looping;
* when the loop ends with no success, `RuntimeError` is raised (line 395). -/
def fetchGo (fastRetry : Bool) (env : ℕ → AttemptEffect) :
    ℕ → ℕ → ℕ → FetchResult
  | 0, attempt, waits => .exhausted (attempt - 1) waits
  | r + 1, attempt, waits =>
    let a := env attempt
    let waitsNext := if 0 < r ∧ fastRetry = false then waits + 1 else waits
    match a.outcome with
    | .rscriptNotFound => .rscriptMissing attempt waits
    | .exited code =>
      if code = 0 ∧ a.artifact.isSome = true then .downloaded attempt waits
      else fetchGo fastRetry env r (attempt + 1) waitsNext
    | .timedOut => fetchGo fastRetry env r (attempt + 1) waitsNext
    | .raisedOther => fetchGo fastRetry env r (attempt + 1) waitsNext

/-- The idempotent-skip test of `run_r_download` (orchestrator.py line
276): `parquet_path.exists() and parquet_path.stat().st_size > 0`. -/
def artifactNonEmpty : Option ℕ → Bool
  | none => false
  | some s => decide (0 < s)

/-- `run_r_download` (orchestrator.py lines 256-402): if not forced and
the parquet artifact already exists with non-zero size, return it with no
invocation; otherwise run the retry loop starting at attempt 1.
(The Rscript command-path resolution of lines 289-319 only selects the
command string and is elided.) -/
def run_r_download (force fastRetry : Bool) (maxRetries : ℕ)
    (initialArtifact : Option ℕ) (env : ℕ → AttemptEffect) : FetchResult :=
  if force = false ∧ artifactNonEmpty initialArtifact = true then .skipped
  else fetchGo fastRetry env maxRetries 1 0

/-- The spec's claim C3 as a proposition over the embedding: every
attempt classified as success has a non-empty artifact.  (Refuted: the
code checks existence only.) -/
def claimFetchSuccessNeedsNonZeroSize : Prop :=
  ∀ (env : ℕ → AttemptEffect) (maxRetries n w : ℕ),
    fetchGo false env maxRetries 1 0 = .downloaded n w →
    artifactNonEmpty (env n).artifact = true

/- ============================================================ -/
/- Backoff laws (orchestrator.py line 384, mailer.py lines 131/143) -/
/- ============================================================ -/

/-- The spec's abstract RetryPolicy law: `delay = base × multiplier^(attempt−1)`. -/
def delay (attempt : ℕ) (base multiplier : ℚ) : ℚ :=
  base * multiplier ^ (attempt - 1)

/-- Fetch-stage backoff (orchestrator.py line 384):
`wait_seconds = retry_interval * (1.5 ** (attempt - 1))`. -/
def fetchBackoffSeconds (retryInterval : ℚ) (attempt : ℕ) : ℚ :=
  retryInterval * (3 / 2) ^ (attempt - 1)

/-- Delivery-stage backoff (mailer.py lines 131 and 143):
`wait = 5 * (2 ** (attempt - 1))`. -/
def smtpBackoffSeconds (attempt : ℕ) : ℕ :=
  5 * 2 ^ (attempt - 1)

/- ============================================================ -/
/- analyze_options (analyzer.py lines 82-319)                    -/
/- ============================================================ -/

/-- One row of the parquet table, restricted to the fields the analysis
pipeline reads.  `premed = none` models a NaN there. -/
structure OptionRow where
  symbol : String
  qtdneg : ℤ
  voltot : ℚ
  premed : Option ℚ
  preult : ℚ
deriving DecidableEq

/-- One row of the returned DataFrame (analyzer.py result columns). -/
structure ResultRow where
  symbol : String
  qtdneg : ℤ
  voltot : ℚ
  premed : ℚ
  ticket_medio : ℚ
  pct_do_dia : ℚ
deriving DecidableEq

/-- The filter configuration consumed by `analyze_options`. -/
structure Filters where
  max_operations : ℤ
  min_financial_volume : ℚ
  top_n : ℕ
deriving DecidableEq

/-- The statistics dict returned by `analyze_options` (the keys used by
the orchestrator). -/
structure AnalyzeStats where
  total_options : ℕ
  total_volume : ℚ
  after_filters : ℕ
  top_n_volume : ℚ
deriving DecidableEq

/-- premed fallback (analyzer.py lines 160-176): NaN entries of `premed`
are filled from `preult`. -/
def fillPremed (r : OptionRow) : OptionRow :=
  { r with premed := some (r.premed.getD r.preult) }

/-- Cleaning step (analyzer.py line 183): keep rows with `qtdneg > 0`
(avoids division by zero in the ticket computation). -/
def analyzeClean (rows : List OptionRow) : List OptionRow :=
  (rows.map fillPremed).filter fun r => decide (0 < r.qtdneg)

/-- Ticket computation (analyzer.py line 201):
`ticket_medio = voltot / qtdneg`.  `pct_do_dia` is filled in later. -/
def mkTicket (r : OptionRow) : ResultRow :=
  ⟨r.symbol, r.qtdneg, r.voltot, r.premed.getD r.preult,
    r.voltot / (r.qtdneg : ℚ), 0⟩

/-- The configured filters (analyzer.py lines 226-229):
`qtdneg <= max_operations and voltot >= min_financial_volume`. -/
def passesFilters (f : Filters) (r : ResultRow) : Bool :=
  decide (r.qtdneg ≤ f.max_operations) && decide (f.min_financial_volume ≤ r.voltot)

/-- Rows surviving cleaning, ticket computation and the filters.  (The
inf/NaN sweep of analyzer.py lines 204-212 is a no-op over ℚ once
`qtdneg > 0` holds, as the code itself notes.) -/
def analyzeFiltered (rows : List OptionRow) (f : Filters) : List ResultRow :=
  ((analyzeClean rows).map mkTicket).filter (passesFilters f)

/-- `total_volume` statistic (analyzer.py line 145): sum of `voltot`
over the whole file. -/
def totalVolume (rows : List OptionRow) : ℚ :=
  (rows.map OptionRow.voltot).sum

/-- pct-of-day computation (analyzer.py line 249):
`pct_do_dia = voltot / total_volume * 100`. -/
def withPct (tv : ℚ) (r : ResultRow) : ResultRow :=
  { r with pct_do_dia := r.voltot / tv * 100 }

/-- The descending sort key relation used at analyzer.py lines 255-259:
row `a` precedes row `b` when `b.ticket_medio ≤ a.ticket_medio`. -/
def tmGE (a b : ResultRow) : Prop :=
  b.ticket_medio ≤ a.ticket_medio

instance : DecidableRel tmGE :=
  fun a b => inferInstanceAs (Decidable (b.ticket_medio ≤ a.ticket_medio))

instance : IsTotal ResultRow tmGE :=
  ⟨fun a b => le_total b.ticket_medio a.ticket_medio⟩

instance : IsTrans ResultRow tmGE :=
  ⟨fun _ _ _ hab hbc => le_trans hbc hab⟩

/-- Sort descending by ticket then take the top N (analyzer.py lines
255-266). -/
def analyzeTop (rows : List OptionRow) (f : Filters) : List ResultRow :=
  (List.insertionSort tmGE
    ((analyzeFiltered rows f).map (withPct (totalVolume rows)))).take f.top_n

/-- `analyze_options` (analyzer.py lines 82-319) over an already-loaded,
schema-valid table.  Empty-after-cleaning (line 193) and
empty-after-filters (line 236) both return an empty DataFrame with
`after_filters = 0` and `top_n_volume = 0` — a normal return, not an
exception. -/
def analyze_options (rows : List OptionRow) (f : Filters) :
    List ResultRow × AnalyzeStats :=
  if (analyzeClean rows).length = 0 then
    ([], ⟨rows.length, totalVolume rows, 0, 0⟩)
  else if (analyzeFiltered rows f).length = 0 then
    ([], ⟨rows.length, totalVolume rows, 0, 0⟩)
  else
    (analyzeTop rows f,
      ⟨rows.length, totalVolume rows, (analyzeFiltered rows f).length,
        ((analyzeTop rows f).map ResultRow.voltot).sum⟩)

/- ============================================================ -/
/- main (orchestrator.py lines 476-654)                          -/
/- ============================================================ -/

/-- Outcome of a phase-shaped region of `main`: normal completion with
a value, a raised `Exception`, or a `KeyboardInterrupt` delivered there. -/
inductive PhaseOut (α : Type) where
  | ok (a : α)
  | exn
  | intr

/-- The run environment of one `main` invocation: outcomes of the
pre-lock section (config load + date resolution, lines 494-527) and of
each phase under the lock, plus the flags steering phase 4.
`fetch` yields the parquet table on success; `render` yields the PDF
size in bytes; `analyzeSig` is a signal (interrupt/exception) hitting
phase 2, whose normal result is computed by `analyze_options`. -/
structure MainEnv where
  preLock : PhaseOut Unit
  fetch : PhaseOut (List OptionRow)
  analyzeSig : PhaseOut Unit
  render : PhaseOut ℕ
  deliver : PhaseOut Unit
  emailEnabled : Bool
  noEmail : Bool
  filters : Filters

/-- How the body of the `with DateLock(...)` block ends: success
(recording the number of result rows and whether phase 4 delivered or
was skipped), a raised `Exception`, or a `KeyboardInterrupt`. -/
inductive BodyResult where
  | success (rows : ℕ) (delivered : Bool)
  | exn
  | intr
deriving DecidableEq

/-- The `with`-block body of `main` (orchestrator.py lines 531-611):
fetch, analyze, render (with the `pdf_size_kb < 10` validation of lines
588-596 raising `ValueError`), then deliver — phase 4 runs only when
`config['email']['enabled'] and not args.no_email` (line 600), otherwise
it is skipped, not failed. -/
def runBody (env : MainEnv) : BodyResult :=
  match env.fetch with
  | .intr => .intr
  | .exn => .exn
  | .ok rows =>
    match env.analyzeSig with
    | .intr => .intr
    | .exn => .exn
    | .ok _ =>
      let res := analyze_options rows env.filters
      match env.render with
      | .intr => .intr
      | .exn => .exn
      | .ok pdfBytes =>
        if (pdfBytes : ℚ) / 1024 < 10 then .exn
        else if env.emailEnabled = true ∧ env.noEmail = false then
          match env.deliver with
          | .intr => .intr
          | .exn => .exn
          | .ok _ => .success res.1.length true
        else .success res.1.length false

/-- Exit-code mapping of `main`'s outer try/except (orchestrator.py
lines 626-631): normal completion returns 0, `KeyboardInterrupt` sets
130, any other `Exception` sets 1 (after the best-effort alert). -/
def exitOf : BodyResult → ℕ
  | .success _ _ => 0
  | .exn => 1
  | .intr => 130

/-- `main` (orchestrator.py lines 476-654), from the lock-relevant point
of view.  Pre-lock failures return before any lock exists.  Once
`DateLock.acquire` succeeds, the body runs and — by the `with` statement
semantics — `DateLock.release` runs on every exit of the body, normal or
exceptional, before the outer handlers translate the outcome to an exit
code.  The `fuelOut` and release-error branches are unreachable
(claims C9 and C7). -/
def mainRun (env : MainEnv) (ttlHours now : ℚ) (pid : ℕ)
    (fs0 : Option LockFile) : ℕ × Option LockFile :=
  match env.preLock with
  | .intr => (130, fs0)
  | .exn => (1, fs0)
  | .ok _ =>
    match DateLock.acquire ttlHours now pid fs0 with
    | .lockHeld _ _ => (1, fs0)
    | .fuelOut => (1, fs0)
    | .acquired f =>
      match DateLock.release (some f) with
      | .error _ => (1, none)
      | .ok fs1 => (exitOf (runBody env), fs1)

/-- The spec's claim C7 (first half) as a proposition over the
embedding: `release` leaves the lock file in place whenever the file on
disk is not owned by the releasing process.  (Refuted: the code deletes
on mere existence.) -/
def claimReleaseChecksOwner : Prop :=
  ∀ (handlePid : ℕ) (f : LockFile), f.pid ≠ handlePid →
    DateLock.release (some f) = .ok (some f)

/- ============================================================ -/
/- Concrete inputs used by witnesses                             -/
/- ============================================================ -/

/-- An environment whose every invocation exits with code 1 and leaves
no artifact. -/
def envAllNonZero : ℕ → AttemptEffect := fun _ => ⟨.exited 1, none⟩

/-- An environment whose first invocation exits cleanly and produces a
non-empty artifact. -/
def envFirstOk : ℕ → AttemptEffect := fun _ => ⟨.exited 0, some 2048⟩

/-- An environment whose first invocation exits cleanly but leaves a
zero-byte artifact. -/
def envEmptyArtifact : ℕ → AttemptEffect := fun _ => ⟨.exited 0, some 0⟩

/-- A run environment interrupted during phase 1. -/
def envInterrupted : MainEnv :=
  ⟨.ok (), .intr, .ok (), .ok 20480, .ok (), true, false, ⟨5, 100000, 20⟩⟩

/-- A run environment whose fetch yields an empty table (so the analyzer
reports zero rows after filtering) and whose later phases succeed. -/
def envZeroRows : MainEnv :=
  ⟨.ok (), .ok [], .ok (), .ok 20480, .ok (), true, false, ⟨5, 100000, 20⟩⟩

/-- Two sample parquet rows (mirroring the repository's test fixture
shape). -/
def sampleRows : List OptionRow :=
  [⟨"PETRK250", 2, 500000, some (3 / 2), 2⟩,
   ⟨"VALEF240", 4, 400000, some 2, 3⟩]

/-- Default sample filters. -/
def sampleFilters : Filters := ⟨5, 100000, 20⟩

/- ============================================================ -/
/- Helper lemmas                                                 -/
/- ============================================================ -/

/-- One unfolding of the acquire loop on an existing lock file. -/
theorem acquireLoop_succ_some (ttl now : ℚ) (pid fuel : ℕ) (f : LockFile) :
    acquireLoop ttl now pid (fuel + 1) (some f) =
      if lockAgeHours now f < ttl then .lockHeld (lockAgeHours now f) ttl
      else acquireLoop ttl now pid fuel none := rfl

/-- The acquire loop on an absent lock file succeeds at once. -/
theorem acquireLoop_succ_none (ttl now : ℚ) (pid fuel : ℕ) :
    acquireLoop ttl now pid (fuel + 1) none = .acquired ⟨now, now, pid⟩ := rfl

/-- A successful fetch records an invocation number no smaller than the
attempt counter the loop started from. -/
theorem fetchGo_downloaded_attempt_le (fast : Bool) (env : ℕ → AttemptEffect) :
    ∀ r attempt waits n w, fetchGo fast env r attempt waits = .downloaded n w →
      attempt ≤ n := by
  intro r
  induction r with
  | zero =>
    intro attempt waits n w h
    exact absurd h (by simp [fetchGo])
  | succ k ih =>
    intro attempt waits n w h
    cases ho : (env attempt).outcome with
    | rscriptNotFound => simp [fetchGo, ho] at h
    | exited code =>
      simp only [fetchGo, ho] at h
      split at h
      · cases h
        exact le_refl _
      · have := ih (attempt + 1) _ n w h
        omega
    | timedOut =>
      simp only [fetchGo, ho] at h
      have := ih (attempt + 1) _ n w h
      omega
    | raisedOther =>
      simp only [fetchGo, ho] at h
      have := ih (attempt + 1) _ n w h
      omega

/-- The invocation counter of the retry loop is bounded by the attempts
remaining. -/
theorem fetchGo_invocations_le (fast : Bool) (env : ℕ → AttemptEffect) :
    ∀ r attempt waits, 1 ≤ attempt →
      (fetchGo fast env r attempt waits).invocations ≤ attempt + r - 1 := by
  intro r
  induction r with
  | zero =>
    intro attempt waits h
    simp only [fetchGo, FetchResult.invocations]
    omega
  | succ k ih =>
    intro attempt waits h
    cases ho : (env attempt).outcome with
    | rscriptNotFound =>
      simp only [fetchGo, ho, FetchResult.invocations]
      omega
    | exited code =>
      simp only [fetchGo, ho]
      split
      · simp only [FetchResult.invocations]
        omega
      · exact le_trans (ih (attempt + 1) _ (by omega)) (by omega)
    | timedOut =>
      simp only [fetchGo, ho]
      exact le_trans (ih (attempt + 1) _ (by omega)) (by omega)
    | raisedOther =>
      simp only [fetchGo, ho]
      exact le_trans (ih (attempt + 1) _ (by omega)) (by omega)

/- ============================================================ -/
/- Claims C2, C9, C7                                             -/
/- ============================================================ -/

/-- Claim C2: on an acquire against an existing lock file, an age below
the ttl fails with the lock-held error reporting that age and the ttl;
an age at or above the ttl evicts the file and a fresh acquisition
succeeds, with an outcome independent of the evicted file's stored
content (staleness is a function of the modification time alone). -/
theorem C2_lock_ttl_policy (ttl now : ℚ) (pid : ℕ) (f : LockFile) :
    (lockAgeHours now f < ttl →
      DateLock.acquire ttl now pid (some f) = .lockHeld (lockAgeHours now f) ttl) ∧
    (ttl ≤ lockAgeHours now f →
      DateLock.acquire ttl now pid (some f) = .acquired ⟨now, now, pid⟩) := by
  constructor
  · intro h
    show acquireLoop ttl now pid (1 + 1) (some f) = _
    rw [acquireLoop_succ_some, if_pos h]
  · intro h
    show acquireLoop ttl now pid (1 + 1) (some f) = _
    rw [acquireLoop_succ_some, if_neg (not_lt.mpr h), acquireLoop_succ_none]

/-- Claim C2 witness: a one-hour-old lock is held against a 24h ttl; a
25-hour-old lock is evicted and re-acquired whatever its content. -/
theorem C2_witness :
    DateLock.acquire 24 3600 7 (some ⟨0, 0, 99⟩)
      = .lockHeld (lockAgeHours 3600 ⟨0, 0, 99⟩) 24 ∧
    DateLock.acquire 24 90000 7 (some ⟨0, 0, 99⟩) = .acquired ⟨90000, 90000, 7⟩ :=
  ⟨(C2_lock_ttl_policy 24 3600 7 ⟨0, 0, 99⟩).1 (by norm_num [lockAgeHours]),
   (C2_lock_ttl_policy 24 90000 7 ⟨0, 0, 99⟩).2 (by norm_num [lockAgeHours])⟩

/-- Claim C9: in the sequential model the evict-then-recreate loop of
acquire is bounded — fuel 2 (at most one eviction retry) already decides
every acquisition, and the loop never runs out. -/
theorem C9_acquire_terminates (ttl now : ℚ) (pid : ℕ) (fs : Option LockFile)
    (fuel : ℕ) (hf : 2 ≤ fuel) :
    acquireLoop ttl now pid fuel fs = DateLock.acquire ttl now pid fs ∧
    DateLock.acquire ttl now pid fs ≠ .fuelOut := by
  obtain ⟨k, rfl⟩ : ∃ k, fuel = k + 2 := ⟨fuel - 2, by omega⟩
  cases fs with
  | none => exact ⟨rfl, fun h => AcquireResult.noConfusion h⟩
  | some f =>
    constructor
    · show (if lockAgeHours now f < ttl then AcquireResult.lockHeld (lockAgeHours now f) ttl
          else acquireLoop ttl now pid (k + 1) none)
        = (if lockAgeHours now f < ttl then AcquireResult.lockHeld (lockAgeHours now f) ttl
          else acquireLoop ttl now pid 1 none)
      by_cases h : lockAgeHours now f < ttl
      · simp only [if_pos h]
      · simp only [if_neg h, acquireLoop_succ_none]
    · show (if lockAgeHours now f < ttl then AcquireResult.lockHeld (lockAgeHours now f) ttl
          else acquireLoop ttl now pid 1 none) ≠ AcquireResult.fuelOut
      by_cases h : lockAgeHours now f < ttl
      · simp only [if_pos h]
        exact fun hh => AcquireResult.noConfusion hh
      · simp only [if_neg h, acquireLoop_succ_none]
        exact fun hh => AcquireResult.noConfusion hh

/-- Claim C9 witness: instantiation at concrete fuel and state. -/
theorem C9_witness :
    acquireLoop 24 0 1 3 none = DateLock.acquire 24 0 1 none ∧
    DateLock.acquire 24 0 1 none ≠ .fuelOut :=
  C9_acquire_terminates 24 0 1 none 3 (by norm_num)

/-- Claim C7 counterexample: the code's release deletes the lock file on
mere existence — a file recorded as owned by pid 2 is still deleted by a
process releasing with pid 1, so release does NOT delete only when the
in-process handle is the current owner. -/
theorem C7_counterexample : ¬ claimReleaseChecksOwner := by
  intro h
  have h2 := h 1 ⟨0, 0, 2⟩ (by decide)
  have h3 : DateLock.release (some (⟨0, 0, 2⟩ : LockFile)) = .ok none := rfl
  rw [h3] at h2
  exact Option.noConfusion (Except.ok.inj h2)

/-- Claim C7 (amended): release never raises — it is a silent no-op when
the lock file is already absent (externally deleted), and deletes the
file whenever it exists, regardless of the stored owner. -/
theorem C7_release_never_raises :
    DateLock.release none = .ok none ∧
    ∀ f : LockFile, DateLock.release (some f) = .ok none :=
  ⟨rfl, fun _ => rfl⟩

/- ============================================================ -/
/- Claim C3                                                      -/
/- ============================================================ -/

/-- Claim C3 counterexample: an invocation exiting 0 that leaves a
zero-byte artifact is classified as success by the code (line 349 checks
existence only), so success does not require a non-zero-size artifact. -/
theorem C3_counterexample : ¬ claimFetchSuccessNeedsNonZeroSize := by
  intro h
  have h2 := h envEmptyArtifact 1 1 0 rfl
  simp [envEmptyArtifact, artifactNonEmpty] at h2

/-- Claim C3 (amended): an invocation is classified as success iff the
process exits 0 AND the artifact exists — existence only, its size is
not inspected: a clean exit with a missing artifact is a failure, but a
clean exit with an existing empty artifact is classified success. -/
theorem C3_success_classification (env : ℕ → AttemptEffect) (maxRetries : ℕ)
    (hmax : 1 ≤ maxRetries) (c : ℤ) (hc : (env 1).outcome = .exited c) :
    fetchGo false env maxRetries 1 0 = .downloaded 1 0 ↔
      c = 0 ∧ (env 1).artifact.isSome = true := by
  obtain ⟨k, rfl⟩ : ∃ k, maxRetries = k + 1 := ⟨maxRetries - 1, by omega⟩
  constructor
  · intro h
    simp only [fetchGo, hc] at h
    split at h
    · assumption
    · exact absurd (fetchGo_downloaded_attempt_le false env k 2 _ 1 0 h) (by omega)
  · rintro ⟨rfl, hart⟩
    simp only [fetchGo, hc]
    simp [hart]

/-- Claim C3 witness: the amended classification applied at the
zero-byte-artifact environment — classified success on a clean exit. -/
theorem C3_witness :
    (envEmptyArtifact 1).outcome = .exited 0 ∧
    fetchGo false envEmptyArtifact 4 1 0 = .downloaded 1 0 :=
  ⟨rfl, (C3_success_classification envEmptyArtifact 4 (by norm_num) 0 rfl).mpr
    ⟨rfl, rfl⟩⟩

/- ============================================================ -/
/- Claims C4, C5, C6                                             -/
/- ============================================================ -/

/-- Claim C4: with force off and an existing non-empty artifact the
fetch stage performs zero invocations and reports the skip-success; with
force on, the skip test is bypassed and — the first invocation
succeeding, as in the spec's scenario — exactly one invocation happens,
regardless of the pre-existing artifact state. -/
theorem C4_idempotent_skip (fastRetry : Bool) (maxRetries : ℕ)
    (init : Option ℕ) (env : ℕ → AttemptEffect) :
    (artifactNonEmpty init = true →
      run_r_download false fastRetry maxRetries init env = .skipped ∧
      (run_r_download false fastRetry maxRetries init env).invocations = 0) ∧
    (1 ≤ maxRetries → (env 1).outcome = .exited 0 → (env 1).artifact.isSome = true →
      run_r_download true fastRetry maxRetries init env = .downloaded 1 0 ∧
      (run_r_download true fastRetry maxRetries init env).invocations = 1) := by
  constructor
  · intro h
    have e : run_r_download false fastRetry maxRetries init env = .skipped := by
      simp [run_r_download, h]
    exact ⟨e, by rw [e]; rfl⟩
  · intro hmax hc hart
    obtain ⟨k, rfl⟩ : ∃ k, maxRetries = k + 1 := ⟨maxRetries - 1, by omega⟩
    have e : run_r_download true fastRetry (k + 1) init env = .downloaded 1 0 := by
      simp only [run_r_download]
      rw [if_neg (by simp)]
      simp only [fetchGo, hc]
      simp [hart]
    exact ⟨e, by rw [e]; rfl⟩

/-- Claim C4 witness: concrete skip (artifact of 2048 bytes, no force,
zero invocations) and concrete forced run (exactly one invocation). -/
theorem C4_witness :
    run_r_download false false 4 (some 2048) envFirstOk = .skipped ∧
    (run_r_download false false 4 (some 2048) envFirstOk).invocations = 0 ∧
    run_r_download true false 4 (some 2048) envFirstOk = .downloaded 1 0 ∧
    (run_r_download true false 4 (some 2048) envFirstOk).invocations = 1 := by
  have h1 := (C4_idempotent_skip false 4 (some 2048) envFirstOk).1 rfl
  have h2 := (C4_idempotent_skip false 4 (some 2048) envFirstOk).2 (by norm_num) rfl rfl
  exact ⟨h1.1, h1.2, h2.1, h2.2⟩

/-- Claim C5: four consecutive non-zero exits against a maximum of 4
attempts end in terminal failure after exactly 4 invocations and exactly
3 backoff waits; and in general the invocation counter never exceeds the
configured maximum. -/
theorem C5_retry_budget (env : ℕ → AttemptEffect) :
    ((∀ n, 1 ≤ n → n ≤ 4 → ∃ c, (env n).outcome = .exited c ∧ c ≠ 0) →
      run_r_download false false 4 none env = .exhausted 4 3) ∧
    (∀ (force fastRetry : Bool) (maxRetries : ℕ) (init : Option ℕ),
      (run_r_download force fastRetry maxRetries init env).invocations ≤ maxRetries) := by
  constructor
  · intro h
    obtain ⟨c1, hc1, hn1⟩ := h 1 (by norm_num) (by norm_num)
    obtain ⟨c2, hc2, hn2⟩ := h 2 (by norm_num) (by norm_num)
    obtain ⟨c3, hc3, hn3⟩ := h 3 (by norm_num) (by norm_num)
    obtain ⟨c4, hc4, hn4⟩ := h 4 (by norm_num) (by norm_num)
    have e : run_r_download false false 4 none env = fetchGo false env 4 1 0 := by
      simp [run_r_download, artifactNonEmpty]
    rw [e]
    simp [fetchGo, hc1, hc2, hc3, hc4, hn1, hn2, hn3, hn4]
  · intro force fastRetry maxRetries init
    simp only [run_r_download]
    split
    · simp [FetchResult.invocations]
    · have := fetchGo_invocations_le fastRetry env maxRetries 1 0 (by norm_num)
      omega

/-- Claim C5 witness: the all-failing environment hits the exact budget. -/
theorem C5_witness :
    run_r_download false false 4 none envAllNonZero = .exhausted 4 3 ∧
    (run_r_download false false 4 none envAllNonZero).invocations ≤ 4 :=
  ⟨(C5_retry_budget envAllNonZero).1 (fun _ _ _ => ⟨1, rfl, by norm_num⟩),
   (C5_retry_budget envAllNonZero).2 false false 4 none⟩

/-- Claim C6: both concrete backoff computations are instances of the
law `delay = base × multiplier^(attempt−1)` — the fetch stage at
multiplier 1.5, the delivery stage at base 5 and multiplier 2; the
quoted values delay(1,5,1.5)=5, delay(2)=7.5, delay(3)=11.25 hold; and
the delay is strictly increasing in the attempt number. -/
theorem C6_backoff_law :
    (∀ (retryInterval : ℚ) (attempt : ℕ),
      fetchBackoffSeconds retryInterval attempt = delay attempt retryInterval (3 / 2)) ∧
    (∀ attempt : ℕ, (smtpBackoffSeconds attempt : ℚ) = delay attempt 5 2) ∧
    delay 1 5 (3 / 2) = 5 ∧ delay 2 5 (3 / 2) = 15 / 2 ∧ delay 3 5 (3 / 2) = 45 / 4 ∧
    (∀ (attempt : ℕ) (base multiplier : ℚ), 1 ≤ attempt → 0 < base → 1 < multiplier →
      delay attempt base multiplier < delay (attempt + 1) base multiplier) := by
  refine ⟨fun ri a => rfl, fun a => ?_, by norm_num [delay], by norm_num [delay],
    by norm_num [delay], ?_⟩
  · push_cast [smtpBackoffSeconds, delay]
    ring
  · intro a b m ha hb hm
    obtain ⟨k, rfl⟩ : ∃ k, a = k + 1 := ⟨a - 1, by omega⟩
    simp only [delay, Nat.add_sub_cancel]
    rw [pow_succ]
    have hk : (0 : ℚ) < m ^ k := pow_pos (by linarith) k
    nlinarith [mul_pos hb hk]

/-- Claim C6 witness: the law at concrete instantiations and the strict
increase between attempts 2 and 3. -/
theorem C6_witness :
    fetchBackoffSeconds 300 2 = delay 2 300 (3 / 2) ∧
    (smtpBackoffSeconds 3 : ℚ) = delay 3 5 2 ∧
    delay 2 5 (3 / 2) < delay 3 5 (3 / 2) :=
  ⟨C6_backoff_law.1 300 2, C6_backoff_law.2.1 3,
   C6_backoff_law.2.2.2.2.2 2 5 (3 / 2) (by norm_num) (by norm_num) (by norm_num)⟩

/- ============================================================ -/
/- Claims C1, C8                                                 -/
/- ============================================================ -/

/-- Once acquired, the lock is released on every body exit and the run's
exit code is the outer handlers' translation of the body outcome. -/
theorem mainRun_after_acquire (env : MainEnv) (ttl now : ℚ) (pid : ℕ)
    (fs0 : Option LockFile) (f : LockFile)
    (hpre : env.preLock = .ok ())
    (hf : DateLock.acquire ttl now pid fs0 = .acquired f) :
    mainRun env ttl now pid fs0 = (exitOf (runBody env), none) := by
  simp [mainRun, hpre, hf, DateLock.release, unlink]

/-- Claim C1: whenever the lock for the target date is successfully
acquired, the run leaves the lock file absent on every exit path —
success, classified failure, or interrupt — the exit code is the
translation of the body outcome, and an interrupt delivered mid-phase
exits with code 130. -/
theorem C1_lock_released_every_exit (env : MainEnv) (ttl now : ℚ) (pid : ℕ)
    (fs0 : Option LockFile)
    (hpre : env.preLock = .ok ())
    (hacq : ∃ f, DateLock.acquire ttl now pid fs0 = .acquired f) :
    (mainRun env ttl now pid fs0).2 = none ∧
    (mainRun env ttl now pid fs0).1 = exitOf (runBody env) ∧
    (runBody env = .intr → (mainRun env ttl now pid fs0).1 = 130) := by
  obtain ⟨f, hf⟩ := hacq
  rw [mainRun_after_acquire env ttl now pid fs0 f hpre hf]
  exact ⟨rfl, rfl, fun h => by rw [h]; rfl⟩

/-- Claim C1 witness: a run interrupted during phase 1 on a fresh lock
state exits with code 130 and the lock file absent. -/
theorem C1_witness :
    (mainRun envInterrupted 24 0 7 none).2 = none ∧
    (mainRun envInterrupted 24 0 7 none).1 = 130 := by
  have h := C1_lock_released_every_exit envInterrupted 24 0 7 none rfl ⟨⟨0, 0, 7⟩, rfl⟩
  exact ⟨h.1, h.2.2 rfl⟩

/-- A zero `after_filters` statistic comes only from the empty early
returns, whose result DataFrame is empty. -/
theorem analyze_after_filters_zero (rows : List OptionRow) (f : Filters)
    (h : (analyze_options rows f).2.after_filters = 0) :
    (analyze_options rows f).1 = [] := by
  by_cases h1 : (analyzeClean rows).length = 0
  · simp [analyze_options, h1]
  · by_cases h2 : (analyzeFiltered rows f).length = 0
    · simp [analyze_options, h1, h2]
    · have e : (analyze_options rows f).2.after_filters
          = (analyzeFiltered rows f).length := by
        simp [analyze_options, h1, h2]
      rw [e] at h
      exact absurd h h2

/-- Claim C8: when the analyzer reports zero rows after filtering, the
body still completes as a success carrying zero rows — delivery is
performed or skipped exactly per the email configuration — and, the
remaining collaborators behaving (a large-enough PDF, delivery not
failing), the run exits with code 0 and the lock released: the condition
is never classified as fatal. -/
theorem C8_zero_rows_soft_success (env : MainEnv) (ttl now : ℚ) (pid : ℕ)
    (fs0 : Option LockFile) (rows : List OptionRow) (pdfBytes : ℕ)
    (hpre : env.preLock = .ok ())
    (hacq : ∃ f, DateLock.acquire ttl now pid fs0 = .acquired f)
    (hfetch : env.fetch = .ok rows)
    (hsig : env.analyzeSig = .ok ())
    (hempty : (analyze_options rows env.filters).2.after_filters = 0)
    (hrender : env.render = .ok pdfBytes)
    (hpdf : ¬ ((pdfBytes : ℚ) / 1024 < 10))
    (hdeliver : env.deliver = .ok ()) :
    runBody env = .success 0 (env.emailEnabled && !env.noEmail) ∧
    (mainRun env ttl now pid fs0).1 = 0 ∧
    (mainRun env ttl now pid fs0).2 = none := by
  have hlen : (analyze_options rows env.filters).1.length = 0 := by
    rw [analyze_after_filters_zero rows env.filters hempty]
    rfl
  have hbody : runBody env = .success 0 (env.emailEnabled && !env.noEmail) := by
    simp only [runBody, hfetch, hsig, hrender]
    rw [if_neg hpdf]
    by_cases hb : env.emailEnabled = true ∧ env.noEmail = false
    · rw [if_pos hb]
      simp only [hdeliver, hlen, hb.1, hb.2]
      rfl
    · rw [if_neg hb]
      have hfalse : (env.emailEnabled && !env.noEmail) = false := by
        cases he : env.emailEnabled <;> cases hn : env.noEmail <;> simp_all
      rw [hlen, hfalse]
  obtain ⟨f, hf⟩ := hacq
  refine ⟨hbody, ?_, ?_⟩
  · rw [mainRun_after_acquire env ttl now pid fs0 f hpre hf, hbody]
    rfl
  · rw [mainRun_after_acquire env ttl now pid fs0 f hpre hf]

/-- Claim C8 witness: a concrete run whose fetch yields an empty table —
zero rows after filtering — delivers the zero-rows report and exits 0
with the lock released. -/
theorem C8_witness :
    runBody envZeroRows = .success 0 true ∧
    (mainRun envZeroRows 24 0 7 none).1 = 0 ∧
    (mainRun envZeroRows 24 0 7 none).2 = none := by
  have h := C8_zero_rows_soft_success envZeroRows 24 0 7 none [] 20480 rfl
    ⟨⟨0, 0, 7⟩, rfl⟩ rfl rfl rfl rfl (by norm_num) rfl
  exact ⟨h.1, h.2.1, h.2.2⟩

/- ============================================================ -/
/- Claim C10                                                     -/
/- ============================================================ -/

/-- Rows surviving the cleaning step have a positive operation count. -/
theorem mem_analyzeClean_pos {rows : List OptionRow} {r : OptionRow}
    (h : r ∈ analyzeClean rows) : 0 < r.qtdneg := by
  simp only [analyzeClean, List.mem_filter] at h
  exact of_decide_eq_true h.2

/-- Rows surviving the filter step satisfy the three filters and carry
the ticket computed as volume over operation count. -/
theorem mem_analyzeFiltered_props {rows : List OptionRow} {f : Filters}
    {r : ResultRow} (h : r ∈ analyzeFiltered rows f) :
    0 < r.qtdneg ∧ r.qtdneg ≤ f.max_operations ∧
      f.min_financial_volume ≤ r.voltot ∧
      r.ticket_medio = r.voltot / (r.qtdneg : ℚ) := by
  simp only [analyzeFiltered, List.mem_filter, List.mem_map] at h
  obtain ⟨⟨r1, hr1, rfl⟩, hpass⟩ := h
  simp only [passesFilters, Bool.and_eq_true, decide_eq_true_eq] at hpass
  exact ⟨mem_analyzeClean_pos hr1, hpass.1, hpass.2, rfl⟩

/-- Every returned top row is a filtered row with its pct-of-day column
filled in. -/
theorem mem_analyzeTop_exists {rows : List OptionRow} {f : Filters}
    {r : ResultRow} (h : r ∈ analyzeTop rows f) :
    ∃ r0 ∈ analyzeFiltered rows f, r = withPct (totalVolume rows) r0 := by
  simp only [analyzeTop] at h
  have h1 := (List.take_sublist _ _).subset h
  have h2 := (List.perm_insertionSort tmGE _).mem_iff.mp h1
  simp only [List.mem_map] at h2
  obtain ⟨r0, hr0, rfl⟩ := h2
  exact ⟨r0, hr0, rfl⟩

/-- Claim C10: whenever `analyze_options` returns, every returned row has
a positive operation count (so the ticket `voltot / qtdneg` was computed
with a non-zero divisor), respects the `max_operations` and
`min_financial_volume` filters, and the returned DataFrame has at most
`top_n` rows, sorted by non-increasing average ticket. -/
theorem C10_analyzer_invariants (rows : List OptionRow) (f : Filters) :
    (∀ r ∈ (analyze_options rows f).1,
      0 < r.qtdneg ∧ r.qtdneg ≤ f.max_operations ∧
      f.min_financial_volume ≤ r.voltot ∧ (r.qtdneg : ℚ) ≠ 0 ∧
      r.ticket_medio = r.voltot / (r.qtdneg : ℚ)) ∧
    (analyze_options rows f).1.length ≤ f.top_n ∧
    List.Sorted tmGE (analyze_options rows f).1 := by
  by_cases h1 : (analyzeClean rows).length = 0
  · simp [analyze_options, h1]
  · by_cases h2 : (analyzeFiltered rows f).length = 0
    · simp [analyze_options, h1, h2]
    · have e : (analyze_options rows f).1 = analyzeTop rows f := by
        simp [analyze_options, h1, h2]
      rw [e]
      refine ⟨?_, ?_, ?_⟩
      · intro r hr
        obtain ⟨r0, hr0, rfl⟩ := mem_analyzeTop_exists hr
        obtain ⟨hq, hmax, hvol, htm⟩ := mem_analyzeFiltered_props hr0
        exact ⟨hq, hmax, hvol, Int.cast_ne_zero.mpr (ne_of_gt hq), htm⟩
      · exact List.length_take_le _ _
      · exact List.Pairwise.sublist (List.take_sublist _ _)
          (List.sorted_insertionSort tmGE _)

/-- Claim C10 witness: the invariants applied at the sample table and
filters. -/
theorem C10_witness :
    (analyze_options sampleRows sampleFilters).1.length ≤ sampleFilters.top_n ∧
    List.Sorted tmGE (analyze_options sampleRows sampleFilters).1 :=
  ⟨(C10_analyzer_invariants sampleRows sampleFilters).2.1,
   (C10_analyzer_invariants sampleRows sampleFilters).2.2⟩
